import Mathlib

/-!
Verification of the credential-handling core of the Snowflake failed-queries
dashboard (main.go): secret resolution (getSecretOrEnv), configuration loading
(loadConfig), private-key parsing (parsePrivateKey), connection-descriptor
construction (the password branch of getSnowflakeConnection), and secret
scrubbing (clearSensitiveData, clearPrivateKey).

Modelling conventions:
- Go byte slices whose contents are opaque to the program are modelled as Lean
  strings; the environment is a total function String to String (Go os.Getenv
  returns the empty string for an unset variable); the filesystem is a partial
  function String to Option String (none models a read error).
- Library primitives the program calls (base64 decoding, PEM decoding, the two
  key-decryption routines and the two container parsers of crypto/x509 and
  github.com/youmark/pkcs8) are modelled as an explicit record of functions,
  so theorems can quantify over their behaviour; x509.IsEncryptedPEMBlock is
  small enough to be translated directly (it checks for a DEK-Info header).
- godotenv.Load merges a .env file into the environment before anything is
  read; the env parameter of loadConfig models the post-merge environment.
-/

deriving instance DecidableEq for Except

namespace SnowflakeDash

/-- Go unicode.IsSpace restricted to the code points that can occur in
Latin-1: space, tab, newline, vertical tab, form feed, carriage return,
next line (U+0085) and no-break space (U+00A0). Used by strings.TrimSpace. -/
def goIsSpace (c : Char) : Bool :=
  [9, 10, 11, 12, 13, 32, 0x85, 0xA0].contains c.toNat

/-- Go strings.TrimSpace: drop leading and trailing white space. -/
def goTrimSpace (s : String) : String :=
  String.mk (((s.toList.dropWhile goIsSpace).reverse.dropWhile goIsSpace).reverse)

/-- The conventional Docker secret directory used by getSecretOrEnv. -/
def secretsDir : String := "/run/secrets"

/-- Go filepath.Join for the shapes used here: a directory joined with a
relative name free of separator and dot segments (the repository only ever
joins literal secret names). Path cleaning of the general Join is not
modelled. -/
def goFilepathJoin (dir name : String) : String :=
  if name = "" then dir else dir ++ "/" ++ name

/-- main.go getSecretOrEnv: read the Docker secret file and return its
trimmed contents, falling back to the environment variable when the file
cannot be read. -/
def getSecretOrEnv (fs : String → Option String) (env : String → String)
    (secretName envName : String) : String :=
  match fs (goFilepathJoin secretsDir secretName) with
  | some data => goTrimSpace data
  | none => env envName

/-- The error taxonomy of configuration loading, following the spec names
for the three distinct error returns of loadConfig. -/
inductive ConfigError where
  | invalidAuthMode
  | missingRequired
  | missingCredential
deriving DecidableEq

/-- main.go Config. AuthType is a string type in the source and is kept as a
string here; AuthTypePassword = "password", AuthTypeKeyPair = "keypair". -/
structure Config where
  account : String
  user : String
  database : String
  schema : String
  warehouse : String
  role : String
  authType : String
  password : String
  privateKeyPath : String
  privateKeyContent : String
  privateKeyPassphrase : String
deriving DecidableEq

/-- main.go loadConfig: read the auth type (defaulting to password), build the
config from the environment, require account and user, then branch on the
auth type, resolving the password or the key locators and passphrase. -/
def loadConfig (fs : String → Option String) (env : String → String) :
    Except ConfigError Config :=
  let authTypeRaw := env "SNOWFLAKE_AUTH_TYPE"
  let authType := if authTypeRaw = "" then "password" else authTypeRaw
  let config : Config := {
    account := env "SNOWFLAKE_ACCOUNT"
    user := env "SNOWFLAKE_USER"
    database := env "SNOWFLAKE_DATABASE"
    schema := env "SNOWFLAKE_SCHEMA"
    warehouse := env "SNOWFLAKE_WAREHOUSE"
    role := env "SNOWFLAKE_ROLE"
    authType := authType
    password := ""
    privateKeyPath := ""
    privateKeyContent := ""
    privateKeyPassphrase := "" }
  if config.account = "" ∨ config.user = "" then
    .error .missingRequired
  else if authType = "password" then
    let password := getSecretOrEnv fs env "snowflake_password" "SNOWFLAKE_PASSWORD"
    if password = "" then .error .missingCredential
    else .ok { config with password := password }
  else if authType = "keypair" then
    let path := env "SNOWFLAKE_PRIVATE_KEY_PATH"
    let content := env "SNOWFLAKE_PRIVATE_KEY_CONTENT"
    let passphrase :=
      getSecretOrEnv fs env "snowflake_private_key_passphrase" "SNOWFLAKE_PRIVATE_KEY_PASSPHRASE"
    if path = "" ∧ content = "" then .error .missingCredential
    else .ok { config with privateKeyPath := path, privateKeyContent := content,
                           privateKeyPassphrase := passphrase }
  else .error .invalidAuthMode

/-- encoding/pem Block: type line, optional headers, body bytes. -/
structure PEMBlock where
  type : String
  headers : List (String × String)
  bytes : String
deriving DecidableEq

/-- crypto/x509 IsEncryptedPEMBlock: a block is legacy-encrypted when it
carries a DEK-Info header. -/
def isEncryptedPEMBlock (b : PEMBlock) : Bool :=
  (b.headers.lookup "DEK-Info").isSome

/-- A CRT value of crypto/rsa PrecomputedValues; the big-integer pointers of
the Go struct are modelled as Option Int, none standing for a nil pointer. -/
structure CRTValue where
  Exp : Option Int
  Coeff : Option Int
  R : Option Int
deriving DecidableEq

/-- crypto/rsa PrecomputedValues. -/
structure PrecomputedValues where
  Dp : Option Int
  Dq : Option Int
  Qinv : Option Int
  CRTValues : Option (List CRTValue)
deriving DecidableEq

/-- crypto/rsa PrivateKey: N and E are the embedded public key, D the private
exponent, Primes the prime factors, Precomputed the CRT data. Pointer and
slice fields are Option so that nil is representable. -/
structure RSAKey where
  N : Option Int
  E : Int
  D : Option Int
  Primes : Option (List (Option Int))
  Precomputed : PrecomputedValues
deriving DecidableEq

/-- The result of a container parser that may yield a non-RSA key (for the Go
type switch on the any-typed result of the PKCS8 parsers). -/
inductive PrivKey where
  | rsa (k : RSAKey)
  | other (typeName : String)
deriving DecidableEq

/-- The error taxonomy of private-key parsing, one constructor per distinct
error return of parsePrivateKey (pkcs1Error stands for the error value that
x509.ParsePKCS1PrivateKey itself returns on the final fallback path). -/
inductive KeyErr where
  | unreadable
  | badEncoding
  | malformedEnvelope
  | passphraseRequired
  | decryptionFailed
  | unsupportedKeyType
  | pkcs1Error
deriving DecidableEq

/-- The library primitives parsePrivateKey calls, as an explicit record so
theorems can quantify over their behaviour: base64 decoding, PEM decoding,
legacy x509.DecryptPEMBlock, pkcs8.ParsePKCS8PrivateKey with passphrase, and
the two plaintext container parsers of crypto/x509. -/
structure Ext where
  base64Decode : String → Option String
  pemDecode : String → Option PEMBlock
  decryptPEMBlock : PEMBlock → String → Option String
  parseEncryptedPKCS8 : String → String → Option PrivKey
  parsePKCS8 : String → Option PrivKey
  parsePKCS1 : String → Option RSAKey

/-- The byte-acquisition section of main.go parsePrivateKey: read the key
file when a path is set, otherwise base64-decode the content variable,
otherwise leave the buffer empty (a nil slice in Go). -/
def getPemBytes (ext : Ext) (fs : String → Option String) (c : Config) :
    Except KeyErr String :=
  if c.privateKeyPath ≠ "" then
    match fs c.privateKeyPath with
    | some b => .ok b
    | none => .error .unreadable
  else if c.privateKeyContent ≠ "" then
    match ext.base64Decode c.privateKeyContent with
    | some b => .ok b
    | none => .error .badEncoding
  else .ok ""

/-- The tail of main.go parsePrivateKey (lines 215 to 227): parse plaintext
key bytes as PKCS8, falling back to PKCS1 when that fails, and reject a
successfully parsed non-RSA key. -/
def parsePlain (ext : Ext) (keyBytes : String) : Except KeyErr RSAKey :=
  match ext.parsePKCS8 keyBytes with
  | some (.rsa k) => .ok k
  | some (.other _) => .error .unsupportedKeyType
  | none =>
    match ext.parsePKCS1 keyBytes with
    | some k => .ok k
    | none => .error .pkcs1Error

/-- main.go parsePrivateKey: acquire the PEM bytes, decode the envelope,
branch on legacy encryption, modern encryption, or plaintext, and parse.
The in-place zeroing of the intermediate buffers (deferred loops in the
source) has no observable effect in this value-level model. -/
def parsePrivateKey (ext : Ext) (fs : String → Option String) (c : Config) :
    Except KeyErr RSAKey :=
  match getPemBytes ext fs c with
  | .error e => .error e
  | .ok pemBytes =>
    match ext.pemDecode pemBytes with
    | none => .error .malformedEnvelope
    | some block =>
      if isEncryptedPEMBlock block then
        if c.privateKeyPassphrase = "" then .error .passphraseRequired
        else
          match ext.decryptPEMBlock block c.privateKeyPassphrase with
          | none => .error .decryptionFailed
          | some keyBytes => parsePlain ext keyBytes
      else if block.type = "ENCRYPTED PRIVATE KEY" then
        if c.privateKeyPassphrase = "" then .error .passphraseRequired
        else
          match ext.parseEncryptedPKCS8 block.bytes c.privateKeyPassphrase with
          | none => .error .decryptionFailed
          | some (.rsa k) => .ok k
          | some (.other _) => .error .unsupportedKeyType
      else parsePlain ext block.bytes

/-- UTF-8 encoding of one code point, as the list of its byte values; this is
how Go strings store text, and net/url escapes byte by byte. -/
def utf8EncodeCharNat (n : Nat) : List Nat :=
  if n < 0x80 then [n]
  else if n < 0x800 then [0xC0 + n / 64, 0x80 + n % 64]
  else if n < 0x10000 then [0xE0 + n / 4096, 0x80 + (n / 64) % 64, 0x80 + n % 64]
  else [0xF0 + n / 262144, 0x80 + (n / 4096) % 64, 0x80 + (n / 64) % 64, 0x80 + n % 64]

/-- The bytes of the UTF-8 representation of a string. -/
def stringBytes (s : String) : List Nat :=
  (s.toList.map (fun c => utf8EncodeCharNat c.toNat)).flatten

/-- The bytes net/url leaves unescaped in a query component: alphanumerics
and the four marks dash, underscore, dot and tilde. -/
def isUnreservedQueryByte (b : Nat) : Bool :=
  (65 ≤ b && b ≤ 90) || (97 ≤ b && b ≤ 122) || (48 ≤ b && b ≤ 57) ||
    b == 45 || b == 95 || b == 46 || b == 126

/-- Upper-case hexadecimal digit, as used by net/url percent escapes. -/
def upperHexDigit (n : Nat) : Char :=
  ("0123456789ABCDEF".toList).getD n '0'

/-- net/url escaping of one byte in a query component: unreserved bytes pass
through, space becomes plus, everything else becomes a percent escape. -/
def escByte (b : Nat) : String :=
  if isUnreservedQueryByte b then String.singleton (Char.ofNat b)
  else if b = 32 then "+"
  else "%" ++ String.singleton (upperHexDigit (b / 16)) ++
    String.singleton (upperHexDigit (b % 16))

/-- Escape a byte sequence, byte by byte, as the net/url escape loop does. -/
def escBytes : List Nat → String
  | [] => ""
  | b :: bs => escByte b ++ escBytes bs

/-- net/url QueryEscape: escape every byte of the UTF-8 form of the string. -/
def queryEscape (s : String) : String :=
  escBytes (stringBytes s)

/-- The password branch of main.go getSnowflakeConnection: the DSN built by
fmt.Sprintf with user, password, warehouse and role passed through
url.QueryEscape and account, database and schema embedded as is. -/
def passwordDSN (c : Config) : String :=
  queryEscape c.user ++ ":" ++ queryEscape c.password ++ "@" ++ c.account ++ "/" ++
    c.database ++ "/" ++ c.schema ++ "?warehouse=" ++ queryEscape c.warehouse ++
    "&role=" ++ queryEscape c.role

/-- main.go clearSensitiveData: zero the byte copies of the password and the
passphrase (unobservable at this level) and reset each non-empty field to the
empty string. -/
def clearSensitiveData (c : Config) : Config :=
  let c1 := if c.password ≠ "" then { c with password := "" } else c
  if c1.privateKeyPassphrase ≠ "" then { c1 with privateKeyPassphrase := "" } else c1

/-- main.go clearPrivateKey: a nil key is left alone; otherwise the private
exponent is set to zero when present, every prime is zeroed and the Primes
slice is set to nil, and the precomputed CRT data is zeroed with the CRTValues
slice set to nil. Setting a slice to nil after zeroing its elements leaves the
field nil, which is what the value model records. -/
def clearPrivateKey (key : Option RSAKey) : Option RSAKey :=
  match key with
  | none => none
  | some k =>
    some { k with
      D := k.D.map (fun _ => 0)
      Primes := none
      Precomputed := {
        Dp := k.Precomputed.Dp.map (fun _ => 0)
        Dq := k.Precomputed.Dq.map (fun _ => 0)
        Qinv := k.Precomputed.Qinv.map (fun _ => 0)
        CRTValues := none } }

/-! Concrete fixtures used to instantiate the theorems below. -/

/-- An empty filesystem: every read fails. -/
def fsEmpty : String → Option String := fun _ => none

/-- A filesystem holding one Docker secret file with padded contents. -/
def fsWithPassword : String → Option String :=
  fun p => if p = "/run/secrets/snowflake_password" then some " pw \n" else none

/-- An environment carrying only the password fallback variable. -/
def envPwFallback : String → String :=
  fun e => if e = "SNOWFLAKE_PASSWORD" then "envpw" else ""

/-- An environment with a capitalized (unrecognized) auth mode and nothing
else set. -/
def envBadMode : String → String :=
  fun e => if e = "SNOWFLAKE_AUTH_TYPE" then "Password" else ""

/-- An environment with account and user set and an unrecognized auth mode. -/
def envModeRSA : String → String :=
  fun e =>
    if e = "SNOWFLAKE_AUTH_TYPE" then "rsa"
    else if e = "SNOWFLAKE_ACCOUNT" then "acct"
    else if e = "SNOWFLAKE_USER" then "bob"
    else ""

/-- A key-pair environment providing a key path. -/
def envKeyPair : String → String :=
  fun e =>
    if e = "SNOWFLAKE_AUTH_TYPE" then "keypair"
    else if e = "SNOWFLAKE_ACCOUNT" then "acct"
    else if e = "SNOWFLAKE_USER" then "bob"
    else if e = "SNOWFLAKE_PRIVATE_KEY_PATH" then "/keys/rsa.pem"
    else ""

/-- A legacy-encrypted PEM block: its headers carry DEK-Info. -/
def blkLegacy : PEMBlock :=
  { type := "RSA PRIVATE KEY"
    headers := [("Proc-Type", "4,ENCRYPTED"), ("DEK-Info", "AES-128-CBC,0102")]
    bytes := "ct" }

/-- An unencrypted PEM block. -/
def blkPlain : PEMBlock := { type := "PRIVATE KEY", headers := [], bytes := "der" }

/-- Primitives whose PEM decoder yields the legacy-encrypted block. -/
def extLegacy : Ext :=
  { base64Decode := fun _ => some "rawpem"
    pemDecode := fun _ => some blkLegacy
    decryptPEMBlock := fun _ _ => none
    parseEncryptedPKCS8 := fun _ _ => none
    parsePKCS8 := fun _ => none
    parsePKCS1 := fun _ => none }

/-- Primitives on which every decode fails. -/
def extNone : Ext :=
  { extLegacy with base64Decode := fun _ => none, pemDecode := fun _ => none }

/-- Primitives whose PKCS8 parser yields a non-RSA key. -/
def extOther : Ext :=
  { extLegacy with parsePKCS8 := fun _ => some (PrivKey.other "ecdsa") }

/-- A key-pair config carrying base64 content and no passphrase. -/
def cfgContentOnly : Config :=
  { account := "acct", user := "bob", database := "", schema := "", warehouse := "", role := ""
    authType := "keypair", password := "", privateKeyPath := "", privateKeyContent := "QUJD"
    privateKeyPassphrase := "" }

/-- A key-pair config with neither key path nor key content. -/
def cfgNoKey : Config := { cfgContentOnly with privateKeyContent := "" }

/-- A password config whose account contains a path separator. -/
def cfgDsnA : Config :=
  { account := "a/b", user := "u", database := "c", schema := "s", warehouse := "w", role := "r"
    authType := "password", password := "p", privateKeyPath := "", privateKeyContent := ""
    privateKeyPassphrase := "" }

/-- The same config with the separator moved into the database field. -/
def cfgDsnB : Config := { cfgDsnA with account := "a", database := "b/c" }

/-- The characters that delimit the fields of the password-mode DSN. -/
def dsnDelims : List Char := [':', '@', '/', '?', '&', '=']

/-! Helper lemmas shared by the claim theorems. -/

lemma clearSensitiveData_password_empty (c : Config) :
    (clearSensitiveData c).password = "" := by
  by_cases h1 : c.password = "" <;> by_cases h2 : c.privateKeyPassphrase = "" <;>
    simp [clearSensitiveData, h1, h2]

lemma clearSensitiveData_passphrase_empty (c : Config) :
    (clearSensitiveData c).privateKeyPassphrase = "" := by
  by_cases h1 : c.password = "" <;> by_cases h2 : c.privateKeyPassphrase = "" <;>
    simp [clearSensitiveData, h1, h2]

lemma clearSensitiveData_id_of_cleared (c : Config)
    (h1 : c.password = "") (h2 : c.privateKeyPassphrase = "") :
    clearSensitiveData c = c := by
  simp [clearSensitiveData, h1, h2]

lemma optMapZero_idem (d : Option Int) :
    ((d.map (fun _ => (0 : Int))).map (fun _ => (0 : Int))) = d.map (fun _ => (0 : Int)) := by
  cases d <;> rfl

lemma optMapZero_comp (d : Option Int) :
    Option.map ((fun _ => (0 : Int)) ∘ (fun _ => (0 : Int))) d = Option.map (fun _ => (0 : Int)) d := by
  cases d <;> rfl

set_option maxRecDepth 4000 in
lemma escByte_delim_free : ∀ b : Nat, b < 256 → ∀ ch ∈ (escByte b).toList, ch ∉ dsnDelims := by
  decide

lemma utf8EncodeCharNat_lt (n : Nat) (h : n < 1114112) :
    ∀ b ∈ utf8EncodeCharNat n, b < 256 := by
  intro b hb
  unfold utf8EncodeCharNat at hb
  split_ifs at hb <;> simp_all <;> omega

lemma stringBytes_lt (s : String) : ∀ b ∈ stringBytes s, b < 256 := by
  intro b hb
  unfold stringBytes at hb
  rw [List.mem_flatten] at hb
  obtain ⟨l, hl, hbl⟩ := hb
  rw [List.mem_map] at hl
  obtain ⟨c, _, rfl⟩ := hl
  have hc : c.toNat < 1114112 := by
    have hv : c.toNat = c.val.toNat := rfl
    rcases c.valid with h | h <;> omega
  exact utf8EncodeCharNat_lt c.toNat hc b hbl

lemma string_append_toList (a b : String) : (a ++ b).toList = a.toList ++ b.toList := rfl

lemma escBytes_delim_free (bs : List Nat) (hb : ∀ b ∈ bs, b < 256) :
    ∀ ch ∈ (escBytes bs).toList, ch ∉ dsnDelims := by
  induction bs with
  | nil =>
    intro ch hch
    exact absurd hch (List.not_mem_nil ch)
  | cons b bs ih =>
    intro ch hch
    rw [escBytes, string_append_toList] at hch
    rcases List.mem_append.mp hch with h | h
    · exact escByte_delim_free b (hb b (by simp)) ch h
    · exact ih (fun x hx => hb x (by simp [hx])) ch h

/-! Claim theorems. -/

/-- C3: for every secret name and environment-variable name, getSecretOrEnv
returns the whitespace-trimmed contents of the secret-store file when that
file is readable, ignoring the environment variable, and otherwise returns
the value of the environment variable (the empty string when unset, since
os.Getenv maps unset variables to the empty string); being a total function
it never raises. -/
theorem getSecretOrEnv_spec (fs : String → Option String) (env : String → String)
    (secretName envName : String) :
    (∀ data, fs (goFilepathJoin secretsDir secretName) = some data →
      getSecretOrEnv fs env secretName envName = goTrimSpace data) ∧
    (fs (goFilepathJoin secretsDir secretName) = none →
      getSecretOrEnv fs env secretName envName = env envName) := by
  constructor
  · intro data h
    simp [getSecretOrEnv, h]
  · intro h
    simp [getSecretOrEnv, h]

/-- Witness for C3: a present secret file wins over the environment variable
and its contents come back trimmed; an absent file falls back to the
environment variable. -/
theorem getSecretOrEnv_spec_witness :
    getSecretOrEnv fsWithPassword envPwFallback "snowflake_password" "SNOWFLAKE_PASSWORD"
      = "pw" ∧
    getSecretOrEnv fsWithPassword envPwFallback "missing_secret" "SNOWFLAKE_PASSWORD"
      = "envpw" := by
  constructor
  · have h := (getSecretOrEnv_spec fsWithPassword envPwFallback "snowflake_password"
      "SNOWFLAKE_PASSWORD").1 " pw \n" (by decide)
    rw [h]; decide
  · have h := (getSecretOrEnv_spec fsWithPassword envPwFallback "missing_secret"
      "SNOWFLAKE_PASSWORD").2 (by decide)
    rw [h]; decide

/-- C1 counterexample: with the unrecognized auth-mode string "Password" and
an environment lacking account and user, loadConfig fails with
MissingRequired, not InvalidAuthMode — the required account and user check
runs before the auth-mode validity check, so the auth-mode check does not
decide before all other validation. -/
theorem loadConfig_missingRequired_beats_invalidAuthMode :
    loadConfig fsEmpty envBadMode = Except.error ConfigError.missingRequired ∧
    loadConfig fsEmpty envBadMode ≠ Except.error ConfigError.invalidAuthMode := by
  decide

/-- C1 (amended): provided account and user are non-empty, loadConfig fails
with InvalidAuthMode for every auth-mode string other than the two recognized
literals "password" and "keypair" (case-sensitive, the empty string
defaulting to Password). -/
theorem loadConfig_invalidAuthMode_requires_account_user
    (fs : String → Option String) (env : String → String)
    (hacct : env "SNOWFLAKE_ACCOUNT" ≠ "") (huser : env "SNOWFLAKE_USER" ≠ "")
    (h0 : env "SNOWFLAKE_AUTH_TYPE" ≠ "")
    (h1 : env "SNOWFLAKE_AUTH_TYPE" ≠ "password")
    (h2 : env "SNOWFLAKE_AUTH_TYPE" ≠ "keypair") :
    loadConfig fs env = Except.error ConfigError.invalidAuthMode := by
  simp [loadConfig, hacct, huser, h0, h1, h2]

/-- Witness for the amended C1: auth mode "rsa" with account and user set is
rejected as InvalidAuthMode. -/
theorem loadConfig_invalidAuthMode_witness :
    loadConfig fsEmpty envModeRSA = Except.error ConfigError.invalidAuthMode :=
  loadConfig_invalidAuthMode_requires_account_user fsEmpty envModeRSA
    (by decide) (by decide) (by decide) (by decide) (by decide)

/-- C4: in key-pair mode with account and user non-empty, loadConfig fails
with MissingCredential exactly when both the key path and the key content
variables are empty; when at least one is non-empty it succeeds; and its
outcome depends on the filesystem only at the passphrase secret path, so the
key file is never read and the key content is never decoded while loading. -/
theorem loadConfig_keypair_credential
    (fs : String → Option String) (env : String → String)
    (hmode : env "SNOWFLAKE_AUTH_TYPE" = "keypair")
    (hacct : env "SNOWFLAKE_ACCOUNT" ≠ "") (huser : env "SNOWFLAKE_USER" ≠ "") :
    (loadConfig fs env = Except.error ConfigError.missingCredential ↔
      (env "SNOWFLAKE_PRIVATE_KEY_PATH" = "" ∧ env "SNOWFLAKE_PRIVATE_KEY_CONTENT" = "")) ∧
    ((env "SNOWFLAKE_PRIVATE_KEY_PATH" ≠ "" ∨ env "SNOWFLAKE_PRIVATE_KEY_CONTENT" ≠ "") →
      ∃ c, loadConfig fs env = Except.ok c) ∧
    (∀ fs2 : String → Option String,
      fs2 (goFilepathJoin secretsDir "snowflake_private_key_passphrase") =
        fs (goFilepathJoin secretsDir "snowflake_private_key_passphrase") →
      loadConfig fs2 env = loadConfig fs env) := by
  refine ⟨?_, ?_, ?_⟩
  · by_cases hp : env "SNOWFLAKE_PRIVATE_KEY_PATH" = "" <;>
    by_cases hc : env "SNOWFLAKE_PRIVATE_KEY_CONTENT" = "" <;>
      simp [loadConfig, hmode, hacct, huser, hp, hc]
  · intro hor
    by_cases hp : env "SNOWFLAKE_PRIVATE_KEY_PATH" = "" <;>
    by_cases hc : env "SNOWFLAKE_PRIVATE_KEY_CONTENT" = "" <;>
      simp_all [loadConfig, hmode, hacct, huser]
  · intro fs2 h
    simp [loadConfig, getSecretOrEnv, hmode, hacct, huser, h]

/-- Witness for C4: a key-pair environment carrying only a key path loads
successfully on an empty filesystem. -/
theorem loadConfig_keypair_credential_witness :
    ∃ c, loadConfig fsEmpty envKeyPair = Except.ok c :=
  (loadConfig_keypair_credential fsEmpty envKeyPair (by decide) (by decide)
    (by decide)).2.1 (Or.inl (by decide))

/-- C2: for every encrypted key block — legacy (DEK-Info header) or modern
(ENCRYPTED PRIVATE KEY envelope type) — an empty resolved passphrase makes
parsePrivateKey fail with PassphraseRequired. The two decryption primitives
of the Ext record are universally quantified and unconstrained by the
hypotheses, so no decryption behaviour can influence this failure: it is
decided before any decryption is attempted. -/
theorem parsePrivateKey_encrypted_empty_passphrase
    (ext : Ext) (fs : String → Option String) (c : Config)
    (pemB : String) (block : PEMBlock)
    (hacq : getPemBytes ext fs c = Except.ok pemB)
    (hblk : ext.pemDecode pemB = some block)
    (henc : isEncryptedPEMBlock block = true ∨ block.type = "ENCRYPTED PRIVATE KEY")
    (hpass : c.privateKeyPassphrase = "") :
    parsePrivateKey ext fs c = Except.error KeyErr.passphraseRequired := by
  cases hIsEnc : isEncryptedPEMBlock block
  · have htype : block.type = "ENCRYPTED PRIVATE KEY" := by
      rcases henc with h | h
      · rw [hIsEnc] at h; cases h
      · exact h
    simp [parsePrivateKey, hacq, hblk, hIsEnc, htype, hpass]
  · simp [parsePrivateKey, hacq, hblk, hIsEnc, hpass]

/-- Witness for C2: a legacy-encrypted block reached through base64 content
with an empty passphrase fails with PassphraseRequired. -/
theorem parsePrivateKey_encrypted_empty_passphrase_witness :
    parsePrivateKey extLegacy fsEmpty cfgContentOnly
      = Except.error KeyErr.passphraseRequired :=
  parsePrivateKey_encrypted_empty_passphrase extLegacy fsEmpty cfgContentOnly
    "rawpem" blkLegacy (by decide) (by decide) (Or.inl (by decide)) rfl

/-- C6: on a plaintext key block parsePrivateKey runs the fallback chain of
parsePlain, which attempts the modern PKCS8 container first, falls back to
the legacy PKCS1 container exactly when the PKCS8 attempt fails (the result
of a successful PKCS8 attempt holds for every behaviour of the PKCS1
parser, which is unconstrained), and fails with UnsupportedKeyType when the
PKCS8 container parses to a non-RSA key. -/
theorem parsePlain_pkcs8_first (ext : Ext) (fs : String → Option String) (c : Config)
    (pemB : String) (block : PEMBlock) (keyBytes : String) :
    (∀ k, ext.parsePKCS8 keyBytes = some (PrivKey.rsa k) →
      parsePlain ext keyBytes = Except.ok k) ∧
    (∀ t, ext.parsePKCS8 keyBytes = some (PrivKey.other t) →
      parsePlain ext keyBytes = Except.error KeyErr.unsupportedKeyType) ∧
    (ext.parsePKCS8 keyBytes = none →
      parsePlain ext keyBytes =
        (match ext.parsePKCS1 keyBytes with
         | some k => Except.ok k
         | none => Except.error KeyErr.pkcs1Error)) ∧
    (getPemBytes ext fs c = Except.ok pemB → ext.pemDecode pemB = some block →
      isEncryptedPEMBlock block = false → block.type ≠ "ENCRYPTED PRIVATE KEY" →
      parsePrivateKey ext fs c = parsePlain ext block.bytes) := by
  refine ⟨?_, ?_, ?_, ?_⟩
  · intro k h; simp [parsePlain, h]
  · intro t h; simp [parsePlain, h]
  · intro h; simp [parsePlain, h]
  · intro h1 h2 h3 h4; simp [parsePrivateKey, h1, h2, h3, h4]

/-- Witness for C6: a PKCS8 parser yielding a non-RSA key makes parsePlain
fail with UnsupportedKeyType. -/
theorem parsePlain_pkcs8_first_witness :
    parsePlain extOther "der" = Except.error KeyErr.unsupportedKeyType :=
  (parsePlain_pkcs8_first extOther fsEmpty cfgContentOnly "" blkPlain "der").2.1
    "ecdsa" (by decide)

/-- C9: when both the key path and the key content are empty parsePrivateKey
leaves the byte buffer empty and, since PEM decoding of an empty buffer
yields no block (the hypothesis mirrors encoding/pem Decode on a nil slice),
fails with the malformed-envelope error rather than crashing. -/
theorem parsePrivateKey_empty_config_malformedEnvelope
    (ext : Ext) (fs : String → Option String) (c : Config)
    (hpath : c.privateKeyPath = "") (hcontent : c.privateKeyContent = "")
    (hpem : ext.pemDecode "" = none) :
    parsePrivateKey ext fs c = Except.error KeyErr.malformedEnvelope := by
  simp [parsePrivateKey, getPemBytes, hpath, hcontent, hpem]

/-- Witness for C9: the all-failing primitives and a config with no key
source produce the malformed-envelope error. -/
theorem parsePrivateKey_empty_config_malformedEnvelope_witness :
    parsePrivateKey extNone fsEmpty cfgNoKey = Except.error KeyErr.malformedEnvelope :=
  parsePrivateKey_empty_config_malformedEnvelope extNone fsEmpty cfgNoKey rfl rfl rfl

/-- C5 counterexample: account, database and schema are embedded in the
descriptor without percent-encoding, so a config value can alter the
descriptor structure: two different configs — one with a separator inside
account, one with it inside database — produce the same descriptor. -/
theorem passwordDSN_structure_collision :
    passwordDSN cfgDsnA = passwordDSN cfgDsnB ∧ cfgDsnA ≠ cfgDsnB := by
  decide

/-- C5 (amended): the descriptor embeds user, password, warehouse and role
percent-encoded, while account, database and schema are embedded raw; the
percent-encoded form of any value contains none of the delimiter characters
of the descriptor syntax, so those four fields cannot alter the descriptor
structure. -/
theorem passwordDSN_escaped_fields_safe (c : Config) :
    passwordDSN c =
      queryEscape c.user ++ ":" ++ queryEscape c.password ++ "@" ++ c.account ++ "/" ++
        c.database ++ "/" ++ c.schema ++ "?warehouse=" ++ queryEscape c.warehouse ++
        "&role=" ++ queryEscape c.role ∧
    (∀ s, (s = c.user ∨ s = c.password ∨ s = c.warehouse ∨ s = c.role) →
      ∀ ch ∈ (queryEscape s).toList, ch ∉ dsnDelims) :=
  ⟨rfl, fun s _ ch hch => escBytes_delim_free (stringBytes s) (stringBytes_lt s) ch hch⟩

/-- Witness for the amended C5: the user field of a concrete config
percent-escapes to a string free of descriptor delimiters. -/
theorem passwordDSN_escaped_fields_safe_witness :
    'u' ∈ (queryEscape "u").toList ∧ 'u' ∉ dsnDelims :=
  ⟨by decide, (passwordDSN_escaped_fields_safe cfgDsnA).2 "u" (Or.inl (by decide))
    'u' (by decide)⟩

/-- C7: after clearSensitiveData runs, reading the password and the private
key passphrase each yields the empty string, whatever their values were. -/
theorem clearSensitiveData_clears (c : Config) :
    (clearSensitiveData c).password = "" ∧
    (clearSensitiveData c).privateKeyPassphrase = "" :=
  ⟨clearSensitiveData_password_empty c, clearSensitiveData_passphrase_empty c⟩

/-- C8: clearSensitiveData and clearPrivateKey are idempotent — applying
either twice equals applying it once — and both are total functions on their
whole domain, so neither has a failure mode. -/
theorem scrub_idempotent (c : Config) (k : Option RSAKey) :
    clearSensitiveData (clearSensitiveData c) = clearSensitiveData c ∧
    clearPrivateKey (clearPrivateKey k) = clearPrivateKey k := by
  constructor
  · exact clearSensitiveData_id_of_cleared _ (clearSensitiveData_password_empty c)
      (clearSensitiveData_passphrase_empty c)
  · cases k with
    | none => rfl
    | some key => simp [clearPrivateKey, optMapZero_idem, optMapZero_comp]

/-- C10: clearPrivateKey zeroes only the private material: the modulus N and
public exponent E of the result equal those of the input, the private
exponent and the precomputed CRT scalars are overwritten with zero when
present (a nil pointer stays nil), the prime and CRT slices become nil, and
a nil key is a no-op. -/
theorem clearPrivateKey_zeroes_private_only (k : RSAKey) :
    clearPrivateKey none = none ∧
    ∃ k2, clearPrivateKey (some k) = some k2 ∧
      k2.N = k.N ∧ k2.E = k.E ∧
      k2.D = k.D.map (fun _ => 0) ∧
      k2.Primes = none ∧
      k2.Precomputed.Dp = k.Precomputed.Dp.map (fun _ => 0) ∧
      k2.Precomputed.Dq = k.Precomputed.Dq.map (fun _ => 0) ∧
      k2.Precomputed.Qinv = k.Precomputed.Qinv.map (fun _ => 0) ∧
      k2.Precomputed.CRTValues = none :=
  ⟨rfl, ⟨_, rfl, rfl, rfl, rfl, rfl, rfl, rfl, rfl, rfl⟩⟩

end SnowflakeDash
